import Mathlib

/-!
# Verification of the MT4 Trade Logger ingestion-reconciliation engine

Shallow embedding of `src/server/main.py` (FastAPI server persisting trade
records and drawdown snapshots into Notion collections).

Modelling conventions:
* Environment configuration is a `Config` record of the five environment
  strings; Python falsiness of a missing variable is the empty string.
* Every remote HTTP interaction consumes one element from a finite stream of
  `NotionResponse` values held in `ServerState`; an exhausted stream behaves
  like a transport-level connection error (`httpx.RequestError`).
* Each operation returns its result together with the updated state and the
  ordered list of `NotionRequest` values it issued (its network trace).
* `async` sequencing in the source is strictly serial, so plain state
  threading is faithful.
* Python's `datetime` is modelled by `PyDateTime`; the wall clock
  (`datetime.now()`) is an explicit `now : PyDateTime` argument.
* Floats (`lotes`, `pnl`, ...) are carried opaquely as `Float`; the code never
  computes with them, it only copies them into request payloads.
-/

/-- Environment configuration (`os.environ` reads at module import). An unset
variable is the empty string, which is falsy in Python. -/
structure Config where
  NOTION_API_KEY : String
  NOTION_DATABASE_ID : String
  NOTION_CUENTAS_DB_ID : String
  NOTION_ESTRATEGIAS_DB_ID : String
  NOTION_DRAWDOWN_DB_ID : String
deriving Repr

/-- The `TradeData` pydantic model. -/
structure TradeData where
  identificador_cuenta : String
  ticket : Int
  magic_number : Int
  simbolo : String
  direccion : String
  lotes : Float
  pnl : Float
  resultado : String
  balance : Float
  fecha_apertura : Option String
  fecha_cierre : String
  comentario : Option String

/-- The `DrawdownData` pydantic model. -/
structure DrawdownData where
  identificador_cuenta : String
  magic_number : Int
  balance : Float
  equity : Float
  peak_balance : Float
  drawdown_cuenta : Float
  drawdown_cuenta_pct : Float
  drawdown_estrategia : Float
  max_drawdown_estrategia : Float
  peak_estrategia : Float
  timestamp : String

/-- A typed Notion property value as placed in a create-page payload. -/
inductive PropValue
  | title (content : String)
  | numberInt (value : Int)
  | numberFloat (value : Float)
  | select (name : String)
  | rich_text (content : String)
  | date (start : String)
  | relation (page_id : String)

/-- A single-property equality filter of a database query payload. -/
inductive NotionFilter
  | numberEquals (property : String) (value : Int)
  | titleEquals (property : String) (value : String)
  | selectEquals (property : String) (value : String)
deriving DecidableEq, Repr

/-- One outbound HTTP request to the Notion API. -/
inductive NotionRequest
  | query (db_id : String) (filter : NotionFilter) (page_size : Nat)
      (start_cursor : Option String)
  | create (db_id : String) (properties : List (String × PropValue))

/-- One entity of a query result page: its page id and, when present, the
content of the first element of its `Ticket` title property (`None` models an
empty or missing title list; a missing `text.content` defaults to `""`). -/
structure QueryResult where
  id : String
  ticket_title : Option String
deriving DecidableEq, Repr

/-- Parsed JSON body of a Notion response, as far as the code reads it:
query pages, create confirmations, and error payloads. Absent keys are read
through the `get*` accessors below, mirroring `dict.get` with defaults. -/
inductive NotionBody
  | queryBody (results : List QueryResult) (has_more : Bool)
      (next_cursor : Option String)
  | createBody (id : Option String)
  | errorBody (message : Option String)
deriving DecidableEq, Repr

/-- Outcome of one HTTP exchange: either a transport failure
(`httpx.RequestError`, carrying its rendered message) or a status code with a
parsed JSON body. -/
inductive NotionResponse
  | connError (msg : String)
  | http (status : Nat) (body : NotionBody)
deriving DecidableEq, Repr

/-- The `data.get("results", [])`. -/
def getResults : NotionBody → List QueryResult
  | .queryBody results _ _ => results
  | _ => []

/-- The `data.get("has_more", False)`. -/
def getHasMore : NotionBody → Bool
  | .queryBody _ h _ => h
  | _ => false

/-- The `data.get("next_cursor")`. -/
def getNextCursor : NotionBody → Option String
  | .queryBody _ _ c => c
  | _ => none

/-- The `response.json().get("id", "")`. -/
def getId : NotionBody → String
  | .createBody (some i) => i
  | _ => ""

/-- The `error_detail.get("message")` (`None` when absent). -/
def getMessage : NotionBody → Option String
  | .errorBody m => m
  | _ => none

/-- Mutable server state: the two module-level relation caches (Python dicts,
modelled as association lists with most-recent binding first) and the stream
of responses the external store will produce, consumed one per request. -/
structure ServerState where
  cache_cuentas : List (String × String)
  cache_estrategias : List (Int × String)
  responses : List NotionResponse

/-- Python `dict` lookup over the association-list model (most recent binding
wins, matching assignment overwriting). -/
def dictFind {κ : Type} [DecidableEq κ] (k : κ) : List (κ × String) → Option String
  | [] => none
  | (k2, v) :: rest => if k2 = k then some v else dictFind k rest

/-- Issue one HTTP request: consume the next scripted response. An exhausted
stream is a transport failure. -/
def doRequest (st : ServerState) : NotionResponse × ServerState :=
  match st.responses with
  | [] => (.connError "stream exhausted", st)
  | r :: rest => (r, { st with responses := rest })

/-! ## Date Normalizer (`formatear_fecha_notion`)

CPython's `datetime.strptime` compiles each directive of the four candidate
formats into a regular expression: `%Y` is exactly four digits; `%m`, `%d`,
`%H`, `%M`, `%S` each match a constrained two-digit alternative or a single
digit. Because in every candidate format each such field is followed by a
non-digit literal (or the end of the string, where a full-length match is
required), regex backtracking from the two-digit alternative can never
succeed, so a greedy two-digits-then-one-digit parser is exact. The
`datetime` constructor then re-validates all fields (rejecting e.g. day 31 in
April or leap seconds 60/61), which the regex phase does not. -/

/-- The value of an ASCII decimal digit character, `none` otherwise. -/
def digitVal (c : Char) : Option Nat :=
  if 48 ≤ c.toNat ∧ c.toNat ≤ 57 then some (c.toNat - 48) else none

/-- The `%Y`: exactly four digits. -/
def parseYear : List Char → Option (Nat × List Char)
  | c1 :: c2 :: c3 :: c4 :: rest => do
    let a ← digitVal c1
    let b ← digitVal c2
    let c ← digitVal c3
    let d ← digitVal c4
    some (1000 * a + 100 * b + 10 * c + d, rest)
  | _ => none

/-- A two-digit-or-one-digit numeric directive. The two-digit alternatives of
the directive's regex accept exactly values in `[lo2, hi2]`; the single-digit
alternative accepts first digits in `[lo1, 9]`. Two digits whose value falls
outside `[lo2, hi2]` fail the whole match (the single-digit fallback would
leave a digit facing a non-digit literal). -/
def parseField (lo2 hi2 lo1 : Nat) : List Char → Option (Nat × List Char)
  | [] => none
  | [c] =>
    match digitVal c with
    | some a => if lo1 ≤ a then some (a, []) else none
    | none => none
  | c1 :: c2 :: rest =>
    match digitVal c1 with
    | none => none
    | some a =>
      match digitVal c2 with
      | none => if lo1 ≤ a then some (a, c2 :: rest) else none
      | some b =>
        let v := 10 * a + b
        if lo2 ≤ v ∧ v ≤ hi2 then some (v, rest) else none

/-- A literal character of the format string. -/
def parseLit (ch : Char) : List Char → Option (List Char)
  | [] => none
  | c :: rest => if c = ch then some rest else none

/-- Gregorian leap year, as `calendar.isleap` / `datetime` use it. -/
def isLeapYear (y : Nat) : Bool :=
  y % 4 = 0 && (y % 100 ≠ 0 || y % 400 = 0)

/-- Days in a month, as validated by the `datetime` constructor. -/
def daysInMonth (y m : Nat) : Nat :=
  if m = 2 then (if isLeapYear y then 29 else 28)
  else if m = 4 ∨ m = 6 ∨ m = 9 ∨ m = 11 then 30
  else 31

/-- Python `datetime` value (naive, microsecond precision). -/
structure PyDateTime where
  year : Nat
  month : Nat
  day : Nat
  hour : Nat
  minute : Nat
  second : Nat
  microsecond : Nat
deriving DecidableEq, Repr

/-- The `datetime` constructor's argument validation. -/
def PyDateTime.valid (d : PyDateTime) : Bool :=
  1 ≤ d.year && d.year ≤ 9999 &&
  1 ≤ d.month && d.month ≤ 12 &&
  1 ≤ d.day && d.day ≤ daysInMonth d.year d.month &&
  d.hour ≤ 23 && d.minute ≤ 59 && d.second ≤ 59 &&
  d.microsecond ≤ 999999

/-- The regex phase of `strptime` for a format
`%Y sepD %m sepD %d sepT %H : %M : %S`, requiring the whole input to be
consumed (as `_strptime` checks `len(data_string) == found.end()`). -/
def strptimeRegex (sepD sepT : Char) (cs : List Char) : Option PyDateTime := do
  let (y, r1) ← parseYear cs
  let r2 ← parseLit sepD r1
  let (mo, r3) ← parseField 1 12 1 r2
  let r4 ← parseLit sepD r3
  let (dy, r5) ← parseField 1 31 1 r4
  let r6 ← parseLit sepT r5
  let (h, r7) ← parseField 0 23 0 r6
  let r8 ← parseLit ':' r7
  let (mi, r9) ← parseField 0 59 0 r8
  let r10 ← parseLit ':' r9
  let (se, r11) ← parseField 0 61 0 r10
  if r11 = [] then some ⟨y, mo, dy, h, mi, se, 0⟩ else none

/-- The `datetime.strptime(s, fmt)` for one of the four candidate formats: the
regex phase followed by constructor validation; `none` models the
`ValueError` the caller catches. -/
def strptimeYmdHMS (sepD sepT : Char) (s : String) : Option PyDateTime :=
  match strptimeRegex sepD sepT s.data with
  | some d => if d.valid then some d else none
  | none => none

/-- The ASCII digit character for `n ≤ 9`. -/
def digitChar (n : Nat) : Char := Char.ofNat (48 + n)

/-- The `%02d` rendering (for values below 100). -/
def pad2c (n : Nat) : List Char := [digitChar (n / 10), digitChar (n % 10)]

/-- The `%04d` rendering (for values below 10000). -/
def pad4c (n : Nat) : List Char :=
  [digitChar (n / 1000), digitChar (n / 100 % 10), digitChar (n / 10 % 10),
   digitChar (n % 10)]

/-- The `%06d` rendering (for values below 1000000). -/
def pad6c (n : Nat) : List Char :=
  [digitChar (n / 100000), digitChar (n / 10000 % 10), digitChar (n / 1000 % 10),
   digitChar (n / 100 % 10), digitChar (n / 10 % 10), digitChar (n % 10)]

/-- The `datetime.isoformat()`: `YYYY-MM-DDTHH:MM:SS`, with `.ffffff` appended
exactly when the microsecond field is nonzero. -/
def PyDateTime.isoformat (d : PyDateTime) : String :=
  String.mk (pad4c d.year ++ '-' :: pad2c d.month ++ '-' :: pad2c d.day ++
    'T' :: pad2c d.hour ++ ':' :: pad2c d.minute ++ ':' :: pad2c d.second ++
    (if d.microsecond = 0 then [] else '.' :: pad6c d.microsecond))

/-- The `formatos_posibles` list: separator pair of each candidate format, in
source order (`%Y.%m.%dT%H:%M:%S`, `%Y-%m-%dT%H:%M:%S`, `%Y.%m.%d %H:%M:%S`,
`%Y-%m-%d %H:%M:%S`). -/
def formatos_posibles : List (Char × Char) :=
  [('.', 'T'), ('-', 'T'), ('.', ' '), ('-', ' ')]

/-- The `formatear_fecha_notion`: empty input falls back to the wall clock; else
the first format that parses wins; else the wall clock again. Total — the
caller never sees an exception. -/
def formatear_fecha_notion (fecha_str : String) (now : PyDateTime) : String :=
  if fecha_str = "" then now.isoformat
  else
    match formatos_posibles.findSome? (fun p => strptimeYmdHMS p.1 p.2 fecha_str) with
    | some d => d.isoformat
    | none => now.isoformat

/-- Syntactic ISO-8601 shape check over the character list:
`DDDD-DD-DDTDD:DD:DD` optionally followed by `.DDDDDD`. -/
def isoShapeChars : List Char → Bool
  | y1 :: y2 :: y3 :: y4 :: a :: m1 :: m2 :: b :: d1 :: d2 :: t :: h1 :: h2 ::
      c :: n1 :: n2 :: e :: s1 :: s2 :: rest =>
    ([y1, y2, y3, y4, m1, m2, d1, d2, h1, h2, n1, n2, s1, s2].all Char.isDigit) &&
    a == '-' && b == '-' && t == 'T' && c == ':' && e == ':' &&
    (match rest with
     | [] => true
     | p :: us => p == '.' && us.length == 6 && us.all Char.isDigit)
  | _ => false

/-- A string is a syntactically valid ISO-8601 timestamp (of the shapes
`isoformat` can emit). -/
def isoShape (s : String) : Bool := isoShapeChars s.data

/-! ## Duplicate Checker (`verificar_ticket_existe`) -/

/-- The `verificar_ticket_existe(ticket, identificador_cuenta)`. The query filter
is `{"property": "Ticket", "number": {"equals": ticket}}` with page size 1;
the `identificador_cuenta` argument is accepted but never used. Unconfigured
credentials, transport failure and non-200 statuses all yield `false`. -/
def verificar_ticket_existe (cfg : Config) (ticket : Int)
    (identificador_cuenta : String) (st : ServerState) :
    Bool × ServerState × List NotionRequest :=
  if cfg.NOTION_API_KEY = "" ∨ cfg.NOTION_DATABASE_ID = "" then (false, st, [])
  else
    let req := NotionRequest.query cfg.NOTION_DATABASE_ID
      (.numberEquals "Ticket" ticket) 1 none
    let (resp, st1) := doRequest st
    match resp with
    | .http status body =>
      if status = 200 then (decide (0 < (getResults body).length), st1, [req])
      else (false, st1, [req])
    | .connError _ => (false, st1, [req])

/-! ## Relation Resolver (`buscar_o_crear_*`, `crear_*`) -/

/-- The `crear_cuenta(nombre_cuenta)`: create the account page with its name as
title; on HTTP 200 cache `response.json().get("id", "")` (even if empty) and
return it; otherwise return the empty identifier. -/
def crear_cuenta (cfg : Config) (nombre_cuenta : String) (st : ServerState) :
    String × ServerState × List NotionRequest :=
  let req := NotionRequest.create cfg.NOTION_CUENTAS_DB_ID
    [("Nombre", .title nombre_cuenta)]
  let (resp, st1) := doRequest st
  match resp with
  | .http status body =>
    if status = 200 then
      let page_id := getId body
      (page_id,
       { st1 with cache_cuentas := (nombre_cuenta, page_id) :: st1.cache_cuentas },
       [req])
    else ("", st1, [req])
  | .connError _ => ("", st1, [req])

/-- The `buscar_o_crear_cuenta(nombre_cuenta)`: cache, then configuration check,
then a title-equality query (page size 1), falling through to creation when
no match exists. Failures degrade to the empty identifier. -/
def buscar_o_crear_cuenta (cfg : Config) (nombre_cuenta : String)
    (st : ServerState) : String × ServerState × List NotionRequest :=
  match dictFind nombre_cuenta st.cache_cuentas with
  | some page_id => (page_id, st, [])
  | none =>
    if cfg.NOTION_CUENTAS_DB_ID = "" then ("", st, [])
    else
      let req := NotionRequest.query cfg.NOTION_CUENTAS_DB_ID
        (.titleEquals "Nombre" nombre_cuenta) 1 none
      let (resp, st1) := doRequest st
      match resp with
      | .http status body =>
        if status = 200 then
          match getResults body with
          | r :: _ =>
            (r.id,
             { st1 with cache_cuentas := (nombre_cuenta, r.id) :: st1.cache_cuentas },
             [req])
          | [] =>
            let (page_id, st2, tr2) := crear_cuenta cfg nombre_cuenta st1
            (page_id, st2, req :: tr2)
        else ("", st1, [req])
      | .connError _ => ("", st1, [req])

/-- The synthesized strategy title:
`f"Estrategia {magic_number}" if magic_number != 0 else "Manual (0)"`. -/
def nombre_estrategia (magic_number : Int) : String :=
  if magic_number ≠ 0 then "Estrategia " ++ toString magic_number
  else "Manual (0)"

/-- The `crear_estrategia(magic_number)`: create the strategy page with the
synthesized title plus the numeric `Magic Number` property; caching mirrors
`crear_cuenta`. -/
def crear_estrategia (cfg : Config) (magic_number : Int) (st : ServerState) :
    String × ServerState × List NotionRequest :=
  let req := NotionRequest.create cfg.NOTION_ESTRATEGIAS_DB_ID
    [("Nombre", .title (nombre_estrategia magic_number)),
     ("Magic Number", .numberInt magic_number)]
  let (resp, st1) := doRequest st
  match resp with
  | .http status body =>
    if status = 200 then
      let page_id := getId body
      (page_id,
       { st1 with cache_estrategias := (magic_number, page_id) :: st1.cache_estrategias },
       [req])
    else ("", st1, [req])
  | .connError _ => ("", st1, [req])

/-- The `buscar_o_crear_estrategia(magic_number)`: cache, configuration check,
numeric-equality query on `Magic Number` (page size 1), then creation. -/
def buscar_o_crear_estrategia (cfg : Config) (magic_number : Int)
    (st : ServerState) : String × ServerState × List NotionRequest :=
  match dictFind magic_number st.cache_estrategias with
  | some page_id => (page_id, st, [])
  | none =>
    if cfg.NOTION_ESTRATEGIAS_DB_ID = "" then ("", st, [])
    else
      let req := NotionRequest.query cfg.NOTION_ESTRATEGIAS_DB_ID
        (.numberEquals "Magic Number" magic_number) 1 none
      let (resp, st1) := doRequest st
      match resp with
      | .http status body =>
        if status = 200 then
          match getResults body with
          | r :: _ =>
            (r.id,
             { st1 with cache_estrategias := (magic_number, r.id) :: st1.cache_estrategias },
             [req])
          | [] =>
            let (page_id, st2, tr2) := crear_estrategia cfg magic_number st1
            (page_id, st2, req :: tr2)
        else ("", st1, [req])
      | .connError _ => ("", st1, [req])

/-! ## Ticket Enumerator (`obtener_tickets_cuenta`) -/

/-- Python `str.isdigit()` restricted to ASCII input: nonempty and all
characters are decimal digits. -/
def pyIsDigit (s : String) : Bool :=
  !s.data.isEmpty && s.data.all Char.isDigit

/-- The `int(s)` for a string of decimal digits. -/
def pyInt (s : String) : Int :=
  Int.ofNat (s.data.foldl (fun a c => a * 10 + (c.toNat - 48)) 0)

/-- Per-entity ticket extraction: take the first title element's text content
when the title list is nonempty, and keep it only when purely numeric. -/
def parseTicketEntry (r : QueryResult) : Option Int :=
  match r.ticket_title with
  | some s => if pyIsDigit s then some (pyInt s) else none
  | none => none

/-- The query payload of one enumeration page: select-equality on `Cuenta`,
page size 100, and a `start_cursor` key only when the cursor is truthy. -/
def mkTicketsQuery (cfg : Config) (cuenta : String) (cursor : Option String) :
    NotionRequest :=
  NotionRequest.query cfg.NOTION_DATABASE_ID (.selectEquals "Cuenta" cuenta) 100
    (match cursor with
     | some s => if s = "" then none else some s
     | none => none)

/-- The `while has_more` pagination loop, consuming one scripted response per
page. A 200 page appends its parsed tickets and continues when `has_more`;
a transport failure or non-200 status stops the loop (`has_more = False`),
keeping what was accumulated. -/
def obtener_tickets_loop (cfg : Config) (cuenta : String) :
    Option String → List Int → List NotionResponse →
    List Int × List NotionResponse × List NotionRequest
  | cursor, acc, [] => (acc, [], [mkTicketsQuery cfg cuenta cursor])
  | cursor, acc, resp :: rest =>
    let req := mkTicketsQuery cfg cuenta cursor
    match resp with
    | .http status body =>
      if status = 200 then
        let acc2 := acc ++ (getResults body).filterMap parseTicketEntry
        if getHasMore body then
          let (res, rem, tr) :=
            obtener_tickets_loop cfg cuenta (getNextCursor body) acc2 rest
          (res, rem, req :: tr)
        else (acc2, rest, [req])
      else (acc, rest, [req])
    | .connError _ => (acc, rest, [req])

/-- The `obtener_tickets_cuenta(identificador_cuenta)`: configuration guard, then
the pagination loop starting with no cursor and an empty accumulator. -/
def obtener_tickets_cuenta (cfg : Config) (identificador_cuenta : String)
    (st : ServerState) : List Int × ServerState × List NotionRequest :=
  if cfg.NOTION_API_KEY = "" ∨ cfg.NOTION_DATABASE_ID = "" then ([], st, [])
  else
    let (res, rem, tr) := obtener_tickets_loop cfg identificador_cuenta none [] st.responses
    (res, { st with responses := rem }, tr)

/-! ## Trade Recorder (`enviar_a_notion`) -/

/-- The `HTTPException` raised by the trade-creation path: status code plus
detail string. -/
structure HTTPErr where
  status_code : Nat
  detail : String
deriving DecidableEq, Repr

/-- The dictionary `enviar_a_notion` returns: either the skip notice
(`{"id": "duplicate", "status": "skipped", ...}`) or the Notion create
response body, of which the caller reads `.get("id", "")` (and whose absent
`"status"` key never equals `"skipped"`). -/
inductive EnvioResult
  | skipped
  | created (page_id : String)
deriving DecidableEq, Repr

/-- The create-page property map for one trade, in source insertion order:
the nine unconditional properties, then `Cuenta` and `Estrategia` relations
when the resolved identifiers are nonempty, then `Fecha Apertura` when the
normalized opening date is present (truthy). -/
def tradeProps (trade : TradeData) (fecha_cierre_iso : String)
    (fecha_apertura_iso : Option String)
    (cuenta_page_id estrategia_page_id : String) : List (String × PropValue) :=
  [("Símbolo", .title trade.simbolo),
   ("Ticket", .numberInt trade.ticket),
   ("Dirección", .select trade.direccion),
   ("Lotes", .numberFloat trade.lotes),
   ("PnL", .numberFloat trade.pnl),
   ("Resultado", .select trade.resultado),
   ("Balance", .numberFloat trade.balance),
   ("Fecha Cierre", .date fecha_cierre_iso),
   ("Comentario", .rich_text (trade.comentario.getD ""))] ++
  (if cuenta_page_id = "" then [] else [("Cuenta", .relation cuenta_page_id)]) ++
  (if estrategia_page_id = "" then []
   else [("Estrategia", .relation estrategia_page_id)]) ++
  (match fecha_apertura_iso with
   | some f => if f = "" then [] else [("Fecha Apertura", PropValue.date f)]
   | none => [])

/-- The `enviar_a_notion(trade, verificar_duplicado)`. Order of operations as in
the source: configuration check (raising `HTTPException(500, ...)` before any
network activity), optional duplicate check (skip without any write on a
hit), date normalization, relation resolution, then the create request. A
non-200 create response raises the remote status with the body's message; a
transport failure raises 503. -/
def enviar_a_notion (cfg : Config) (now : PyDateTime) (trade : TradeData)
    (verificar_duplicado : Bool) (st : ServerState) :
    Except HTTPErr EnvioResult × ServerState × List NotionRequest :=
  if cfg.NOTION_API_KEY = "" ∨ cfg.NOTION_DATABASE_ID = "" then
    (.error ⟨500, "Notion API Key o Database ID no configurados en el servidor."⟩,
     st, [])
  else
    let dup :=
      if verificar_duplicado then
        verificar_ticket_existe cfg trade.ticket trade.identificador_cuenta st
      else (false, st, [])
    match dup with
    | (true, st1, tr1) => (.ok .skipped, st1, tr1)
    | (false, st1, tr1) =>
      let fecha_cierre_iso := formatear_fecha_notion trade.fecha_cierre now
      let fecha_apertura_iso : Option String :=
        match trade.fecha_apertura with
        | some s => if s = "" then none else some (formatear_fecha_notion s now)
        | none => none
      let (cuenta_page_id, st2, tr2) :=
        buscar_o_crear_cuenta cfg trade.identificador_cuenta st1
      let (estrategia_page_id, st3, tr3) :=
        buscar_o_crear_estrategia cfg trade.magic_number st2
      let req := NotionRequest.create cfg.NOTION_DATABASE_ID
        (tradeProps trade fecha_cierre_iso fecha_apertura_iso
          cuenta_page_id estrategia_page_id)
      let (resp, st4) := doRequest st3
      let tr := tr1 ++ tr2 ++ tr3 ++ [req]
      match resp with
      | .http status body =>
        if status = 200 then (.ok (.created (getId body)), st4, tr)
        else
          (.error ⟨status,
             "Error de Notion: " ++ ((getMessage body).getD "Error desconocido")⟩,
           st4, tr)
      | .connError m =>
        (.error ⟨503, "Error de conexión con Notion: " ++ m⟩, st4, tr)

/-! ## Drawdown Recorder (`guardar_drawdown_notion`) -/

/-- The dictionary `guardar_drawdown_notion` returns, distinguished by its
`"status"` key: `"logged_only"`, `"logged"`, the raw Notion body (no status
key) on a successful save, or `{"status": "error", "detail": ...}`. -/
inductive DDResult
  | logged_only
  | logged
  | notion_body (body : NotionBody)
  | error_result (detail : String)
deriving DecidableEq, Repr

/-- The create-page property map for one drawdown snapshot (dedicated
collection), in source insertion order. -/
def drawdownProps (dd : DrawdownData) (fecha_iso : String) :
    List (String × PropValue) :=
  [("Timestamp", .title fecha_iso),
   ("Cuenta", .select dd.identificador_cuenta),
   ("Magic Number", .numberInt dd.magic_number),
   ("Balance", .numberFloat dd.balance),
   ("Equity", .numberFloat dd.equity),
   ("Peak Balance", .numberFloat dd.peak_balance),
   ("DD Cuenta ($)", .numberFloat dd.drawdown_cuenta),
   ("DD Cuenta (%)", .numberFloat dd.drawdown_cuenta_pct),
   ("DD Estrategia ($)", .numberFloat dd.drawdown_estrategia),
   ("Max DD Estrategia ($)", .numberFloat dd.max_drawdown_estrategia),
   ("Peak Estrategia", .numberFloat dd.peak_estrategia)]

/-- The `str(error_detail)` for the inline error payload of a failed drawdown
save: an abstract deterministic rendering of the body. -/
def bodyErrorString (b : NotionBody) : String := (getMessage b).getD ""

/-- The `guardar_drawdown_notion(drawdown)`:
`db_id = NOTION_DRAWDOWN_DB_ID or NOTION_DATABASE_ID`; missing key or missing
`db_id` yields `"logged_only"`; a missing dedicated collection (with the
fallback present) yields `"logged"`; both without any network call. Only a
configured dedicated collection triggers the create request, whose failures
are returned inline (never raised). -/
def guardar_drawdown_notion (cfg : Config) (now : PyDateTime)
    (dd : DrawdownData) (st : ServerState) :
    DDResult × ServerState × List NotionRequest :=
  let db_id := if cfg.NOTION_DRAWDOWN_DB_ID = "" then cfg.NOTION_DATABASE_ID
               else cfg.NOTION_DRAWDOWN_DB_ID
  if cfg.NOTION_API_KEY = "" ∨ db_id = "" then (.logged_only, st, [])
  else if cfg.NOTION_DRAWDOWN_DB_ID = "" then (.logged, st, [])
  else
    let fecha_iso := formatear_fecha_notion dd.timestamp now
    let req := NotionRequest.create cfg.NOTION_DRAWDOWN_DB_ID
      (drawdownProps dd fecha_iso)
    let (resp, st1) := doRequest st
    match resp with
    | .http status body =>
      if status = 200 then (.notion_body body, st1, [req])
      else (.error_result (bodyErrorString body), st1, [req])
    | .connError m => (.error_result m, st1, [req])

/-! ## Batch Orchestrator (`registrar_trades_batch`) and `/sync` -/

/-- An element of the `resultados` bucket: `{"ticket": ..., "status":
"success", "page_id": ...}`. -/
structure ResultItem where
  ticket : Int
  page_id : String
deriving DecidableEq, Repr

/-- An element of the `omitidos` bucket: `{"ticket": ..., "status":
"skipped", "message": "Ya existe"}`. -/
structure OmitItem where
  ticket : Int
deriving DecidableEq, Repr

/-- An element of the `errores` bucket: `{"ticket": ..., "status": "error",
"detail": str(e.detail)}`. -/
structure ErrorItem where
  ticket : Int
  detail : String
deriving DecidableEq, Repr

/-- The response dictionary of `/trade/batch`. -/
structure BatchResponse where
  total_recibidos : Nat
  exitosos : Nat
  omitidos : Nat
  fallidos : Nat
  resultados : List ResultItem
  omitidos_detalle : List OmitItem
  errores : List ErrorItem
deriving DecidableEq, Repr

/-- The `for trade in trades` loop: each record is sent with duplicate
checking on; a skip, success, or caught `HTTPException` appends to exactly
one of the three buckets, and the loop always continues with the next
record. Buckets come back in input (append) order. -/
def registrar_batch_loop (cfg : Config) (now : PyDateTime) :
    List TradeData → ServerState →
    (List ResultItem × List OmitItem × List ErrorItem) × ServerState ×
      List NotionRequest
  | [], st => (([], [], []), st, [])
  | trade :: ts, st =>
    let (r, st1, tr1) := enviar_a_notion cfg now trade true st
    let (buckets, st2, tr2) := registrar_batch_loop cfg now ts st1
    match buckets with
    | (res, omi, err) =>
      match r with
      | .ok .skipped =>
        ((res, ⟨trade.ticket⟩ :: omi, err), st2, tr1 ++ tr2)
      | .ok (.created page_id) =>
        ((⟨trade.ticket, page_id⟩ :: res, omi, err), st2, tr1 ++ tr2)
      | .error e =>
        ((res, omi, ⟨trade.ticket, e.detail⟩ :: err), st2, tr1 ++ tr2)

/-- The `/trade/batch` (`registrar_trades_batch`): run the loop and report the
three buckets with their lengths and the number of records received. -/
def registrar_trades_batch (cfg : Config) (now : PyDateTime)
    (trades : List TradeData) (st : ServerState) :
    BatchResponse × ServerState × List NotionRequest :=
  match registrar_batch_loop cfg now trades st with
  | ((res, omi, err), st1, tr) =>
    ({ total_recibidos := trades.length,
       exitosos := res.length,
       omitidos := omi.length,
       fallidos := err.length,
       resultados := res,
       omitidos_detalle := omi,
       errores := err }, st1, tr)

/-- The `/sync` (`sincronizar_historial`): logs the batch size and delegates to
`registrar_trades_batch` on the same input. -/
def sincronizar_historial (cfg : Config) (now : PyDateTime)
    (trades : List TradeData) (st : ServerState) :
    BatchResponse × ServerState × List NotionRequest :=
  registrar_trades_batch cfg now trades st

/-! ## Concrete fixtures used by witnesses and counterexamples -/

/-- A fully unconfigured environment. -/
def cfgUnconfigured : Config := ⟨"", "", "", "", ""⟩

/-- All five variables configured. -/
def cfgFull : Config :=
  ⟨"secret", "db-primary", "db-cuentas", "db-estrategias", "db-dd"⟩

/-- API key and primary collection configured, nothing else. -/
def cfgPrimaryOnly : Config := ⟨"secret", "db-primary", "", "", ""⟩

/-- A concrete wall-clock instant. -/
def nowFix : PyDateTime := ⟨2025, 6, 15, 12, 30, 45, 123456⟩

/-- Empty caches, no scripted responses. -/
def stEmpty : ServerState := ⟨[], [], []⟩

/-- Empty caches; the store will answer one request with HTTP 500. -/
def st500 : ServerState := ⟨[], [], [.http 500 (.errorBody (some "boom"))]⟩

/-- The example trade of the specification. -/
def tradeFix : TradeData :=
  ⟨"FTMO_01", 10042, 0, "EURUSD", "BUY", 0.5, 37.2, "WIN", 10037.2,
   none, "2024.03.11T14:22:09", some ""⟩

/-- A concrete drawdown snapshot. -/
def ddFix : DrawdownData :=
  ⟨"FTMO_01", 7, 10000.0, 9900.0, 10200.0, 300.0, 2.9, 150.0, 400.0, 10100.0,
   "2024.03.11T14:22:09"⟩

/-! ## C10 — `/sync` is observably equivalent to `/trade/batch` -/

/-- C10: for every configuration, wall clock, input list and store behavior,
the `/sync` endpoint returns the same response, the same final state and the
same ordered sequence of remote calls as `/trade/batch`: the source logs and
then delegates unchanged. -/
theorem sync_equals_batch (cfg : Config) (now : PyDateTime)
    (trades : List TradeData) (st : ServerState) :
    sincronizar_historial cfg now trades st =
      registrar_trades_batch cfg now trades st := rfl

/-! ## C4 — configuration error raised before any network activity -/

/-- C4: whenever the primary credential or collection identifier is
unconfigured, `enviar_a_notion` returns the structured 500 configuration
error for every trade and every `verificar_duplicado` flag, with the state
untouched (no response consumed) and an empty network trace — no duplicate
check, no relation resolution, no create request. -/
theorem trade_recorder_config_error_first (cfg : Config) (now : PyDateTime)
    (trade : TradeData) (verificar_duplicado : Bool) (st : ServerState)
    (h : cfg.NOTION_API_KEY = "" ∨ cfg.NOTION_DATABASE_ID = "") :
    enviar_a_notion cfg now trade verificar_duplicado st =
      (.error ⟨500, "Notion API Key o Database ID no configurados en el servidor."⟩,
       st, []) := by
  simp only [enviar_a_notion, if_pos h]

/-- Witness for C4 at a concrete unconfigured environment. -/
theorem trade_recorder_config_error_first_witness :
    enviar_a_notion cfgUnconfigured nowFix tradeFix true stEmpty =
      (.error ⟨500, "Notion API Key o Database ID no configurados en el servidor."⟩,
       stEmpty, []) :=
  trade_recorder_config_error_first cfgUnconfigured nowFix tradeFix true stEmpty
    (Or.inl rfl)

/-! ## C1 — Drawdown Recorder without a dedicated collection -/

/-- C1 counterexample: with the primary collection configured but no
dedicated drawdown collection, the recorder performs zero network calls and
returns status `"logged"` — it does not attempt the fallback identifier as a
storage target, and `"logged_only"` is not the status, contradicting the
claim that a network attempt happens whenever the primary collection is set
and that zero calls occur only when it is unset. -/
theorem drawdown_fallback_counterexample :
    cfgPrimaryOnly.NOTION_DRAWDOWN_DB_ID = "" ∧
    cfgPrimaryOnly.NOTION_DATABASE_ID ≠ "" ∧
    (guardar_drawdown_notion cfgPrimaryOnly nowFix ddFix stEmpty).2.2 = [] ∧
    (guardar_drawdown_notion cfgPrimaryOnly nowFix ddFix stEmpty).1 ≠
      DDResult.logged_only :=
  ⟨rfl, by decide, rfl, by decide⟩

/-- C1 amended: when no dedicated drawdown collection is configured the
recorder never issues a network call at all — the fallback identifier enters
only the configuration check, not storage. It reports `"logged_only"` exactly
when the credential or the fallback (primary) identifier is also unset, and
`"logged"` otherwise. -/
theorem drawdown_no_dedicated_collection (cfg : Config) (now : PyDateTime)
    (dd : DrawdownData) (st : ServerState)
    (h : cfg.NOTION_DRAWDOWN_DB_ID = "") :
    guardar_drawdown_notion cfg now dd st =
      ((if cfg.NOTION_API_KEY = "" ∨ cfg.NOTION_DATABASE_ID = ""
        then DDResult.logged_only else DDResult.logged), st, []) := by
  by_cases hA : cfg.NOTION_API_KEY = "" ∨ cfg.NOTION_DATABASE_ID = "" <;>
    simp [guardar_drawdown_notion, h, hA]

/-- Witness for C1's amended theorem at a concrete configuration. -/
theorem drawdown_no_dedicated_collection_witness :
    guardar_drawdown_notion cfgPrimaryOnly nowFix ddFix stEmpty =
      (DDResult.logged, stEmpty, []) := by
  have h := drawdown_no_dedicated_collection cfgPrimaryOnly nowFix ddFix stEmpty rfl
  exact h.trans rfl

/-! ## C2 — duplicate check filters on ticket only, independent of account -/

/-- C2: the Duplicate Checker's output (result, state and trace) is identical
for any two account identifiers, and whenever the query is issued at all it
is a single query against the primary collection filtering by numeric
equality on the ticket alone, page size 1 — the account never appears in the
request. -/
theorem duplicate_check_account_independent :
    (∀ (cfg : Config) (ticket : Int) (a b : String) (st : ServerState),
       verificar_ticket_existe cfg ticket a st =
         verificar_ticket_existe cfg ticket b st) ∧
    (∀ (cfg : Config) (ticket : Int) (a : String) (st : ServerState),
       cfg.NOTION_API_KEY ≠ "" → cfg.NOTION_DATABASE_ID ≠ "" →
       (verificar_ticket_existe cfg ticket a st).2.2 =
         [NotionRequest.query cfg.NOTION_DATABASE_ID
            (NotionFilter.numberEquals "Ticket" ticket) 1 none]) := by
  constructor
  · intro cfg ticket a b st
    rfl
  · intro cfg ticket a st hk hd
    have hcfg : ¬(cfg.NOTION_API_KEY = "" ∨ cfg.NOTION_DATABASE_ID = "") := by
      rintro (h | h)
      · exact hk h
      · exact hd h
    obtain ⟨cc, ce, rs⟩ := st
    cases rs with
    | nil => simp [verificar_ticket_existe, doRequest, hcfg]
    | cons r rest =>
      cases r with
      | connError m => simp [verificar_ticket_existe, doRequest, hcfg]
      | http status body =>
        by_cases hs : status = 200 <;>
          simp [verificar_ticket_existe, doRequest, hcfg, hs]

/-- Witness for C2 at a concrete configuration and ticket. -/
theorem duplicate_check_account_independent_witness :
    verificar_ticket_existe cfgFull 10042 "FTMO_01" stEmpty =
      verificar_ticket_existe cfgFull 10042 "OTRA_CUENTA" stEmpty ∧
    (verificar_ticket_existe cfgFull 10042 "FTMO_01" stEmpty).2.2 =
      [NotionRequest.query "db-primary"
         (NotionFilter.numberEquals "Ticket" 10042) 1 none] :=
  ⟨duplicate_check_account_independent.1 cfgFull 10042 "FTMO_01" "OTRA_CUENTA"
     stEmpty,
   duplicate_check_account_independent.2 cfgFull 10042 "FTMO_01" stEmpty
     (by decide) (by decide)⟩

/-! ## C3 — duplicate check fails open and never raises -/

/-- C3: the Duplicate Checker is a total function into `Bool` (it never
raises): on a transport failure it returns `false`, on any non-2xx response
it returns `false`, and it returns `true` only when configured and the store
answered the query with a 2xx status (concretely 200) and a non-empty result
list. -/
theorem duplicate_check_fails_open (cfg : Config) (ticket : Int) (a : String)
    (st : ServerState) :
    (∀ m rest, st.responses = NotionResponse.connError m :: rest →
       (verificar_ticket_existe cfg ticket a st).1 = false) ∧
    (∀ status body rest,
       st.responses = NotionResponse.http status body :: rest →
       ¬(200 ≤ status ∧ status < 300) →
       (verificar_ticket_existe cfg ticket a st).1 = false) ∧
    ((verificar_ticket_existe cfg ticket a st).1 = true →
       cfg.NOTION_API_KEY ≠ "" ∧ cfg.NOTION_DATABASE_ID ≠ "" ∧
       ∃ status body rest,
         st.responses = NotionResponse.http status body :: rest ∧
         200 ≤ status ∧ status < 300 ∧ 0 < (getResults body).length) := by
  obtain ⟨cc, ce, rs⟩ := st
  by_cases hcfg : cfg.NOTION_API_KEY = "" ∨ cfg.NOTION_DATABASE_ID = ""
  · refine ⟨?_, ?_, ?_⟩
    · intro m rest hr
      simp [verificar_ticket_existe, hcfg]
    · intro status body rest hr hnot
      simp [verificar_ticket_existe, hcfg]
    · intro htrue
      exfalso
      simp [verificar_ticket_existe, hcfg] at htrue
  · refine ⟨?_, ?_, ?_⟩
    · intro m rest hr
      simp only [ServerState.responses] at hr
      subst hr
      simp [verificar_ticket_existe, doRequest, hcfg]
    · intro status body rest hr hnot
      simp only [ServerState.responses] at hr
      subst hr
      have hs : status ≠ 200 := by
        intro h
        exact hnot ⟨by omega, by omega⟩
      simp [verificar_ticket_existe, doRequest, hcfg, hs]
    · intro htrue
      have hk : cfg.NOTION_API_KEY ≠ "" := fun h => hcfg (Or.inl h)
      have hd : cfg.NOTION_DATABASE_ID ≠ "" := fun h => hcfg (Or.inr h)
      refine ⟨hk, hd, ?_⟩
      cases rs with
      | nil => simp [verificar_ticket_existe, doRequest, hcfg] at htrue
      | cons r rest =>
        cases r with
        | connError m =>
          simp [verificar_ticket_existe, doRequest, hcfg] at htrue
        | http status body =>
          by_cases hs : status = 200
          · subst hs
            simp [verificar_ticket_existe, doRequest, hcfg] at htrue
            exact ⟨200, body, rest, rfl, by omega, by omega, htrue⟩
          · simp [verificar_ticket_existe, doRequest, hcfg, hs] at htrue

/-- Witness for C3: a concrete 500 answer yields `false`. -/
theorem duplicate_check_fails_open_witness :
    (verificar_ticket_existe cfgFull 10042 "FTMO_01" st500).1 = false :=
  (duplicate_check_fails_open cfgFull 10042 "FTMO_01" st500).2.1 500
    (NotionBody.errorBody (some "boom")) [] rfl (by omega)

/-! ## C6 — magic number 0 and the "Manual (0)" strategy entity -/

/-- C6 counterexample: with the strategies collection unconfigured, resolving
magic number 0 returns the empty (absent) relation identifier without any
network call — refuting "never an absent/null relation" as a statement about
every resolution. -/
theorem strategy_zero_counterexample :
    (buscar_o_crear_estrategia cfgPrimaryOnly 0 stEmpty).1 = "" ∧
    (buscar_o_crear_estrategia cfgPrimaryOnly 0 stEmpty).2.2 = [] :=
  ⟨rfl, rfl⟩

/-- C6 amended: when the strategies collection is configured, magic number 0
is not cached yet, the lookup answers 200 with no match and the creation
answers 200, the resolver creates the strategy entity with the stable title
`"Manual (0)"` (plus `Magic Number = 0`), returns the created identifier and
caches it; it is not special-cased to an absent relation. (When the
collection is unconfigured or a remote step fails, it degrades to the empty
identifier like any other magic number.) -/
theorem strategy_zero_manual_title (cfg : Config) (st : ServerState)
    (b1 b2 : NotionBody) (pid : String) (rest : List NotionResponse)
    (hdb : cfg.NOTION_ESTRATEGIAS_DB_ID ≠ "")
    (hcache : dictFind (0 : Int) st.cache_estrategias = none)
    (hresp : st.responses =
      NotionResponse.http 200 b1 :: NotionResponse.http 200 b2 :: rest)
    (hempty : getResults b1 = [])
    (hid : getId b2 = pid) :
    (buscar_o_crear_estrategia cfg 0 st).1 = pid ∧
    (buscar_o_crear_estrategia cfg 0 st).2.2 =
      [NotionRequest.query cfg.NOTION_ESTRATEGIAS_DB_ID
         (NotionFilter.numberEquals "Magic Number" 0) 1 none,
       NotionRequest.create cfg.NOTION_ESTRATEGIAS_DB_ID
         [("Nombre", PropValue.title "Manual (0)"),
          ("Magic Number", PropValue.numberInt 0)]] ∧
    dictFind (0 : Int)
        (buscar_o_crear_estrategia cfg 0 st).2.1.cache_estrategias =
      some pid := by
  obtain ⟨cc, ce, rs⟩ := st
  simp only [ServerState.responses] at hresp
  subst hresp
  simp only [ServerState.cache_estrategias] at hcache
  simp [buscar_o_crear_estrategia, crear_estrategia, doRequest, hcache, hdb,
    hempty, hid, nombre_estrategia, dictFind]

/-- Scripted store: strategy lookup misses, creation succeeds. -/
def stCreateStrategy : ServerState :=
  ⟨[], [],
   [.http 200 (.queryBody [] false none),
    .http 200 (.createBody (some "pid-manual"))]⟩

/-- Witness for C6's amended theorem at a concrete store script. -/
theorem strategy_zero_manual_title_witness :
    (buscar_o_crear_estrategia cfgFull 0 stCreateStrategy).1 = "pid-manual" ∧
    (buscar_o_crear_estrategia cfgFull 0 stCreateStrategy).2.2 =
      [NotionRequest.query "db-estrategias"
         (NotionFilter.numberEquals "Magic Number" 0) 1 none,
       NotionRequest.create "db-estrategias"
         [("Nombre", PropValue.title "Manual (0)"),
          ("Magic Number", PropValue.numberInt 0)]] ∧
    dictFind (0 : Int)
        (buscar_o_crear_estrategia cfgFull 0 stCreateStrategy).2.1.cache_estrategias =
      some "pid-manual" :=
  strategy_zero_manual_title cfgFull stCreateStrategy
    (.queryBody [] false none) (.createBody (some "pid-manual")) "pid-manual"
    [] (by decide) rfl rfl rfl rfl

/-! ## C7 — relation memoization -/

/-- After a `crear_cuenta` call that returns a non-empty identifier, the key
is cached with exactly that identifier. -/
lemma crear_cuenta_cache_of_ne (cfg : Config) (nombre : String)
    (st : ServerState) (h : (crear_cuenta cfg nombre st).1 ≠ "") :
    dictFind nombre (crear_cuenta cfg nombre st).2.1.cache_cuentas =
      some (crear_cuenta cfg nombre st).1 := by
  obtain ⟨cc, ce, rs⟩ := st
  cases rs with
  | nil => simp [crear_cuenta, doRequest] at h
  | cons r rest =>
    cases r with
    | connError m => simp [crear_cuenta, doRequest] at h
    | http status body =>
      by_cases hs : status = 200
      · subst hs
        simp [crear_cuenta, doRequest, dictFind]
      · simp [crear_cuenta, doRequest, hs] at h

/-- After a `crear_estrategia` call that returns a non-empty identifier, the
key is cached with exactly that identifier. -/
lemma crear_estrategia_cache_of_ne (cfg : Config) (magic : Int)
    (st : ServerState) (h : (crear_estrategia cfg magic st).1 ≠ "") :
    dictFind magic (crear_estrategia cfg magic st).2.1.cache_estrategias =
      some (crear_estrategia cfg magic st).1 := by
  obtain ⟨cc, ce, rs⟩ := st
  cases rs with
  | nil => simp [crear_estrategia, doRequest] at h
  | cons r rest =>
    cases r with
    | connError m => simp [crear_estrategia, doRequest] at h
    | http status body =>
      by_cases hs : status = 200
      · subst hs
        simp [crear_estrategia, doRequest, dictFind]
      · simp [crear_estrategia, doRequest, hs] at h

/-- After a successful (non-empty) account resolution, the name is cached
with the returned identifier. -/
lemma buscar_cuenta_cache_of_ne (cfg : Config) (nombre : String)
    (st : ServerState) (h : (buscar_o_crear_cuenta cfg nombre st).1 ≠ "") :
    dictFind nombre (buscar_o_crear_cuenta cfg nombre st).2.1.cache_cuentas =
      some (buscar_o_crear_cuenta cfg nombre st).1 := by
  cases hc : dictFind nombre st.cache_cuentas with
  | some pid => simp [buscar_o_crear_cuenta, hc]
  | none =>
    by_cases hdb : cfg.NOTION_CUENTAS_DB_ID = ""
    · simp [buscar_o_crear_cuenta, hc, hdb] at h
    · obtain ⟨cc, ce, rs⟩ := st
      simp only [ServerState.cache_cuentas] at hc
      cases rs with
      | nil => simp [buscar_o_crear_cuenta, doRequest, hc, hdb] at h
      | cons r rest =>
        cases r with
        | connError m =>
          simp [buscar_o_crear_cuenta, doRequest, hc, hdb] at h
        | http status body =>
          by_cases hs : status = 200
          · subst hs
            cases hres : getResults body with
            | cons q qs =>
              simp [buscar_o_crear_cuenta, doRequest, hc, hdb, hres, dictFind]
            | nil =>
              have hcr := crear_cuenta_cache_of_ne cfg nombre ⟨cc, ce, rest⟩
              simp only [buscar_o_crear_cuenta, doRequest, hc, hdb, hres,
                if_neg, if_pos] at h ⊢
              simp at h ⊢
              exact hcr (by simpa using h)
          · simp [buscar_o_crear_cuenta, doRequest, hc, hdb, hs] at h

/-- After a successful (non-empty) strategy resolution, the magic number is
cached with the returned identifier. -/
lemma buscar_estrategia_cache_of_ne (cfg : Config) (magic : Int)
    (st : ServerState) (h : (buscar_o_crear_estrategia cfg magic st).1 ≠ "") :
    dictFind magic
        (buscar_o_crear_estrategia cfg magic st).2.1.cache_estrategias =
      some (buscar_o_crear_estrategia cfg magic st).1 := by
  cases hc : dictFind magic st.cache_estrategias with
  | some pid => simp [buscar_o_crear_estrategia, hc]
  | none =>
    by_cases hdb : cfg.NOTION_ESTRATEGIAS_DB_ID = ""
    · simp [buscar_o_crear_estrategia, hc, hdb] at h
    · obtain ⟨cc, ce, rs⟩ := st
      simp only [ServerState.cache_estrategias] at hc
      cases rs with
      | nil => simp [buscar_o_crear_estrategia, doRequest, hc, hdb] at h
      | cons r rest =>
        cases r with
        | connError m =>
          simp [buscar_o_crear_estrategia, doRequest, hc, hdb] at h
        | http status body =>
          by_cases hs : status = 200
          · subst hs
            cases hres : getResults body with
            | cons q qs =>
              simp [buscar_o_crear_estrategia, doRequest, hc, hdb, hres,
                dictFind]
            | nil =>
              have hcr := crear_estrategia_cache_of_ne cfg magic ⟨cc, ce, rest⟩
              simp only [buscar_o_crear_estrategia, doRequest, hc, hdb, hres,
                if_neg, if_pos] at h ⊢
              simp at h ⊢
              exact hcr (by simpa using h)
          · simp [buscar_o_crear_estrategia, doRequest, hc, hdb, hs] at h

/-- Scripted store: two consecutive 500 answers. -/
def stTwo500 : ServerState :=
  ⟨[], [],
   [.http 500 (.errorBody (some "boom")), .http 500 (.errorBody (some "boom"))]⟩

/-- C7 counterexample: with the accounts collection configured and the store
answering 500, a first resolution fails (returns empty, caching nothing), so
the second resolution of the same name issues a network call again — one
request, not the zero the claim demands of every second call. -/
theorem relation_cache_counterexample :
    ((buscar_o_crear_cuenta cfgFull "FTMO_01"
        (buscar_o_crear_cuenta cfgFull "FTMO_01" stTwo500).2.1).2.2).length
      = 1 := by decide

/-- C7 amended: whenever a first resolution of an account name or magic
number returns a non-empty identifier, the second resolution of the same key
in the same process is served from the RelationCache: it makes zero network
calls, leaves the state untouched and returns the same identifier. (A failed
first resolution caches nothing and retries remotely, so the claim's
unconditional form fails — see the counterexample.) -/
theorem relation_cache_memoization :
    (∀ (cfg : Config) (nombre : String) (st : ServerState),
       (buscar_o_crear_cuenta cfg nombre st).1 ≠ "" →
       buscar_o_crear_cuenta cfg nombre
           (buscar_o_crear_cuenta cfg nombre st).2.1 =
         ((buscar_o_crear_cuenta cfg nombre st).1,
          (buscar_o_crear_cuenta cfg nombre st).2.1, [])) ∧
    (∀ (cfg : Config) (magic : Int) (st : ServerState),
       (buscar_o_crear_estrategia cfg magic st).1 ≠ "" →
       buscar_o_crear_estrategia cfg magic
           (buscar_o_crear_estrategia cfg magic st).2.1 =
         ((buscar_o_crear_estrategia cfg magic st).1,
          (buscar_o_crear_estrategia cfg magic st).2.1, [])) := by
  constructor
  · intro cfg nombre st h
    have hc := buscar_cuenta_cache_of_ne cfg nombre st h
    rcases hx : buscar_o_crear_cuenta cfg nombre st with ⟨r1, st1, tr1⟩
    rw [hx] at hc
    dsimp only at hc
    dsimp only
    simp only [buscar_o_crear_cuenta, hc]
  · intro cfg magic st h
    have hc := buscar_estrategia_cache_of_ne cfg magic st h
    rcases hx : buscar_o_crear_estrategia cfg magic st with ⟨r1, st1, tr1⟩
    rw [hx] at hc
    dsimp only at hc
    dsimp only
    simp only [buscar_o_crear_estrategia, hc]

/-- Scripted store: one 200 lookup answer containing a match. -/
def stQueryHit : ServerState :=
  ⟨[], [], [.http 200 (.queryBody [⟨"pid-cuenta", none⟩] false none)]⟩

/-- Witness for C7's amended theorem: a successful first lookup, then a
cache-served second call. -/
theorem relation_cache_memoization_witness :
    buscar_o_crear_cuenta cfgFull "FTMO_01"
        (buscar_o_crear_cuenta cfgFull "FTMO_01" stQueryHit).2.1 =
      ((buscar_o_crear_cuenta cfgFull "FTMO_01" stQueryHit).1,
       (buscar_o_crear_cuenta cfgFull "FTMO_01" stQueryHit).2.1, []) :=
  relation_cache_memoization.1 cfgFull "FTMO_01" stQueryHit (by decide)

/-! ## C8 — batch partitioning -/

/-- The batch loop classifies every record into exactly one bucket (the three
bucket lengths sum to the number of records), and each bucket lists its
tickets as an in-order subsequence of the input tickets. -/
lemma registrar_batch_loop_partition (cfg : Config) (now : PyDateTime) :
    ∀ (trades : List TradeData) (st : ServerState),
      ((registrar_batch_loop cfg now trades st).1.1.length +
         (registrar_batch_loop cfg now trades st).1.2.1.length +
         (registrar_batch_loop cfg now trades st).1.2.2.length
        = trades.length) ∧
      ((registrar_batch_loop cfg now trades st).1.1.map ResultItem.ticket).Sublist
        (trades.map TradeData.ticket) ∧
      ((registrar_batch_loop cfg now trades st).1.2.1.map OmitItem.ticket).Sublist
        (trades.map TradeData.ticket) ∧
      ((registrar_batch_loop cfg now trades st).1.2.2.map ErrorItem.ticket).Sublist
        (trades.map TradeData.ticket) := by
  intro trades
  induction trades with
  | nil =>
    intro st
    exact ⟨rfl, List.nil_sublist _, List.nil_sublist _, List.nil_sublist _⟩
  | cons t ts ih =>
    intro st
    rcases he : enviar_a_notion cfg now t true st with ⟨r, st1, tr1⟩
    have iht := ih st1
    rcases hl : registrar_batch_loop cfg now ts st1 with ⟨⟨res, omi, err⟩, st2, tr2⟩
    rw [hl] at iht
    obtain ⟨hlen, hres, homi, herr⟩ := iht
    cases r with
    | error e =>
      simp only [registrar_batch_loop, he, hl, List.length_cons, List.map_cons]
      exact ⟨by have h2 : res.length + omi.length + err.length = ts.length := hlen; omega, hres.cons _, homi.cons _,
        herr.cons₂ _⟩
    | ok v =>
      cases v with
      | skipped =>
        simp only [registrar_batch_loop, he, hl, List.length_cons, List.map_cons]
        exact ⟨by have h2 : res.length + omi.length + err.length = ts.length := hlen; omega, hres.cons _, homi.cons₂ _,
          herr.cons _⟩
      | created page_id =>
        simp only [registrar_batch_loop, he, hl, List.length_cons, List.map_cons]
        exact ⟨by have h2 : res.length + omi.length + err.length = ts.length := hlen; omega, hres.cons₂ _, homi.cons _,
          herr.cons _⟩

/-- C8: the Batch Orchestrator reports `total_recibidos` equal to the number
of records received; every record lands in exactly one of the three buckets,
whose reported counts are the bucket lengths and sum to that total (so no
record's failure aborts the processing of later ones); and each bucket lists
its tickets in input order (an in-order subsequence of the input tickets). -/
theorem batch_partition_counts (cfg : Config) (now : PyDateTime)
    (trades : List TradeData) (st : ServerState) :
    (registrar_trades_batch cfg now trades st).1.total_recibidos
      = trades.length ∧
    (registrar_trades_batch cfg now trades st).1.exitosos +
      (registrar_trades_batch cfg now trades st).1.omitidos +
      (registrar_trades_batch cfg now trades st).1.fallidos = trades.length ∧
    (registrar_trades_batch cfg now trades st).1.exitosos
      = (registrar_trades_batch cfg now trades st).1.resultados.length ∧
    (registrar_trades_batch cfg now trades st).1.omitidos
      = (registrar_trades_batch cfg now trades st).1.omitidos_detalle.length ∧
    (registrar_trades_batch cfg now trades st).1.fallidos
      = (registrar_trades_batch cfg now trades st).1.errores.length ∧
    ((registrar_trades_batch cfg now trades st).1.resultados.map
        ResultItem.ticket).Sublist (trades.map TradeData.ticket) ∧
    ((registrar_trades_batch cfg now trades st).1.omitidos_detalle.map
        OmitItem.ticket).Sublist (trades.map TradeData.ticket) ∧
    ((registrar_trades_batch cfg now trades st).1.errores.map
        ErrorItem.ticket).Sublist (trades.map TradeData.ticket) := by
  have hp := registrar_batch_loop_partition cfg now trades st
  rcases hl : registrar_batch_loop cfg now trades st with ⟨⟨res, omi, err⟩, st2, tr2⟩
  rw [hl] at hp
  obtain ⟨hlen, hres, homi, herr⟩ := hp
  simp only [registrar_trades_batch, hl]
  refine ⟨trivial, hlen, trivial, trivial, trivial, hres, homi, herr⟩

/-! ## C9 — ticket enumeration: accumulation, skipping, fail-open -/

/-- A page answer that keeps the pagination going: HTTP 200 with
`has_more = true`. -/
def GoodMorePage (r : NotionResponse) : Prop :=
  ∃ body, r = NotionResponse.http 200 body ∧ getHasMore body = true

/-- A page-fetch failure: transport error or non-200 status. -/
def FetchFailure (r : NotionResponse) : Prop :=
  (∃ m, r = NotionResponse.connError m) ∨
  ∃ status body, r = NotionResponse.http status body ∧ status ≠ 200

/-- The tickets one page response contributes: the integers of the purely
numeric ticket titles among its results. -/
def pageTickets (r : NotionResponse) : List Int :=
  match r with
  | .http _ body => (getResults body).filterMap parseTicketEntry
  | .connError _ => []

/-- Pagination stops at the first failing page, returning the accumulator
extended by every good page seen so far and leaving the later scripted
responses unconsumed. -/
lemma obtener_loop_fail (cfg : Config) (cuenta : String) :
    ∀ (pages : List NotionResponse) (bad : NotionResponse)
      (rest : List NotionResponse) (cursor : Option String) (acc : List Int),
      (∀ p ∈ pages, GoodMorePage p) → FetchFailure bad →
      (obtener_tickets_loop cfg cuenta cursor acc (pages ++ bad :: rest)).1 =
        acc ++ pages.flatMap pageTickets ∧
      (obtener_tickets_loop cfg cuenta cursor acc (pages ++ bad :: rest)).2.1 =
        rest := by
  intro pages
  induction pages with
  | nil =>
    intro bad rest cursor acc hp hbad
    rcases hbad with ⟨m, rfl⟩ | ⟨status, body, rfl, hs⟩
    · simp [obtener_tickets_loop]
    · simp [obtener_tickets_loop, hs]
  | cons p ps ih =>
    intro bad rest cursor acc hp hbad
    obtain ⟨body, rfl, hmore⟩ := hp p (by simp)
    have hps : ∀ q ∈ ps, GoodMorePage q := fun q hq => hp q (by simp [hq])
    have ihx := ih bad rest (getNextCursor body)
      (acc ++ (getResults body).filterMap parseTicketEntry) hps hbad
    rcases hrec : obtener_tickets_loop cfg cuenta (getNextCursor body)
        (acc ++ (getResults body).filterMap parseTicketEntry)
        (ps ++ bad :: rest) with ⟨res2, rem2, tr2⟩
    rw [hrec] at ihx
    have h1 : res2 = acc ++ (getResults body).filterMap parseTicketEntry ++
        ps.flatMap pageTickets := ihx.1
    have h2 : rem2 = rest := ihx.2
    simp only [List.cons_append, obtener_tickets_loop, hmore, hrec, if_true]
    refine ⟨?_, ?_⟩
    · simp [hrec, h1, pageTickets, List.flatMap_cons, List.append_assoc]
    · simp [hrec, h2]

/-- Pagination over good pages ending with a 200 page whose `has_more` is
false returns everything parsed, leaving later responses unconsumed. -/
lemma obtener_loop_done (cfg : Config) (cuenta : String) :
    ∀ (pages : List NotionResponse) (lastBody : NotionBody)
      (rest : List NotionResponse) (cursor : Option String) (acc : List Int),
      (∀ p ∈ pages, GoodMorePage p) → getHasMore lastBody = false →
      (obtener_tickets_loop cfg cuenta cursor acc
          (pages ++ NotionResponse.http 200 lastBody :: rest)).1 =
        acc ++ pages.flatMap pageTickets ++
          (getResults lastBody).filterMap parseTicketEntry ∧
      (obtener_tickets_loop cfg cuenta cursor acc
          (pages ++ NotionResponse.http 200 lastBody :: rest)).2.1 = rest := by
  intro pages
  induction pages with
  | nil =>
    intro lastBody rest cursor acc hp hlast
    simp [obtener_tickets_loop, hlast]
  | cons p ps ih =>
    intro lastBody rest cursor acc hp hlast
    obtain ⟨body, rfl, hmore⟩ := hp p (by simp)
    have hps : ∀ q ∈ ps, GoodMorePage q := fun q hq => hp q (by simp [hq])
    have ihx := ih lastBody rest (getNextCursor body)
      (acc ++ (getResults body).filterMap parseTicketEntry) hps hlast
    rcases hrec : obtener_tickets_loop cfg cuenta (getNextCursor body)
        (acc ++ (getResults body).filterMap parseTicketEntry)
        (ps ++ NotionResponse.http 200 lastBody :: rest) with ⟨res2, rem2, tr2⟩
    rw [hrec] at ihx
    have h1 : res2 = acc ++ (getResults body).filterMap parseTicketEntry ++
        ps.flatMap pageTickets ++
        (getResults lastBody).filterMap parseTicketEntry := ihx.1
    have h2 : rem2 = rest := ihx.2
    simp only [List.cons_append, obtener_tickets_loop, hmore, hrec, if_true]
    refine ⟨?_, ?_⟩
    · simp [hrec, h1, pageTickets, List.flatMap_cons, List.append_assoc]
    · simp [hrec, h2]

/-- C9: the Ticket Enumerator is a total function into a plain integer list
(it never surfaces an error). Over any run of good pages it returns exactly
the integers parsed from purely numeric ticket titles accumulated across
those pages (non-numeric and missing titles contribute nothing, by
`parseTicketEntry`): if a page fetch fails (transport error or non-200) it
stops pagination right there and returns what was accumulated so far; if the
run ends with a 200 page signalling no more data, it returns everything
parsed including that page. -/
theorem ticket_enumerator_fail_open (cfg : Config) (cuenta : String) :
    (∀ (pages : List NotionResponse) (bad : NotionResponse)
       (rest : List NotionResponse) (st : ServerState),
       cfg.NOTION_API_KEY ≠ "" → cfg.NOTION_DATABASE_ID ≠ "" →
       (∀ p ∈ pages, GoodMorePage p) → FetchFailure bad →
       st.responses = pages ++ bad :: rest →
       (obtener_tickets_cuenta cfg cuenta st).1 = pages.flatMap pageTickets ∧
       (obtener_tickets_cuenta cfg cuenta st).2.1.responses = rest) ∧
    (∀ (pages : List NotionResponse) (lastBody : NotionBody)
       (rest : List NotionResponse) (st : ServerState),
       cfg.NOTION_API_KEY ≠ "" → cfg.NOTION_DATABASE_ID ≠ "" →
       (∀ p ∈ pages, GoodMorePage p) → getHasMore lastBody = false →
       st.responses = pages ++ NotionResponse.http 200 lastBody :: rest →
       (obtener_tickets_cuenta cfg cuenta st).1 =
         pages.flatMap pageTickets ++
           (getResults lastBody).filterMap parseTicketEntry ∧
       (obtener_tickets_cuenta cfg cuenta st).2.1.responses = rest) := by
  constructor
  · intro pages bad rest st hk hd hp hbad hresp
    have hcfg : ¬(cfg.NOTION_API_KEY = "" ∨ cfg.NOTION_DATABASE_ID = "") := by
      rintro (h | h)
      · exact hk h
      · exact hd h
    have hloop := obtener_loop_fail cfg cuenta pages bad rest none [] hp hbad
    rw [← hresp] at hloop
    rcases hrec : obtener_tickets_loop cfg cuenta none [] st.responses
      with ⟨res2, rem2, tr2⟩
    rw [hrec] at hloop
    have h1 : res2 = pages.flatMap pageTickets := by simpa using hloop.1
    have h2 : rem2 = rest := hloop.2
    simp [obtener_tickets_cuenta, hcfg, hrec, h1, h2]
  · intro pages lastBody rest st hk hd hp hlast hresp
    have hcfg : ¬(cfg.NOTION_API_KEY = "" ∨ cfg.NOTION_DATABASE_ID = "") := by
      rintro (h | h)
      · exact hk h
      · exact hd h
    have hloop := obtener_loop_done cfg cuenta pages lastBody rest none [] hp hlast
    rw [← hresp] at hloop
    rcases hrec : obtener_tickets_loop cfg cuenta none [] st.responses
      with ⟨res2, rem2, tr2⟩
    rw [hrec] at hloop
    have h1 : res2 = pages.flatMap pageTickets ++
        (getResults lastBody).filterMap parseTicketEntry := by
      simpa using hloop.1
    have h2 : rem2 = rest := hloop.2
    simp [obtener_tickets_cuenta, hcfg, hrec, h1, h2]

/-- Scripted store for the C9 witness: one good page containing a numeric
ticket "101", a non-numeric ticket "x1" and a missing title, then a
transport failure. -/
def stTicketsPages : ServerState :=
  ⟨[], [],
   [.http 200 (.queryBody
      [⟨"p1", some "101"⟩, ⟨"p2", some "x1"⟩, ⟨"p3", none⟩] true (some "c2")),
    .connError "boom"]⟩

/-- Witness for C9: the good page contributes only the numeric ticket 101;
the failure stops the scan. -/
theorem ticket_enumerator_fail_open_witness :
    (obtener_tickets_cuenta cfgFull "FTMO_01" stTicketsPages).1 = [101] ∧
    (obtener_tickets_cuenta cfgFull "FTMO_01" stTicketsPages).2.1.responses
      = [] := by
  have h := (ticket_enumerator_fail_open cfgFull "FTMO_01").1
    [.http 200 (.queryBody
       [⟨"p1", some "101"⟩, ⟨"p2", some "x1"⟩, ⟨"p3", none⟩] true (some "c2"))]
    (.connError "boom") [] stTicketsPages (by decide) (by decide)
    (by
      intro p hp
      rcases List.mem_singleton.mp hp with rfl
      exact ⟨_, rfl, rfl⟩)
    (Or.inl ⟨"boom", rfl⟩) rfl
  refine ⟨h.1.trans (by decide), h.2⟩

/-! ## C5 — date normalization always yields a valid ISO-8601 string -/

/-- Digit characters built by the padding renderers are decimal digits. -/
lemma digitChar_isDigit (n : Nat) (h : n ≤ 9) : (digitChar n).isDigit = true := by
  interval_cases n <;> decide

/-- A successful `strptime` only produces constructor-validated datetimes. -/
lemma strptime_valid (sepD sepT : Char) (s : String) (d : PyDateTime)
    (h : strptimeYmdHMS sepD sepT s = some d) : d.valid = true := by
  unfold strptimeYmdHMS at h
  cases hreg : strptimeRegex sepD sepT s.data with
  | none =>
    rw [hreg] at h
    exact absurd h (by simp)
  | some d0 =>
    rw [hreg] at h
    have h2 : (if d0.valid = true then some d0 else none) = some d := h
    by_cases hv : d0.valid = true
    · rw [if_pos hv] at h2
      cases h2
      exact hv
    · rw [if_neg hv] at h2
      exact absurd h2 (by simp)

/-- Whatever the first successfully parsing format produces is a validated
datetime. -/
lemma findSome_strptime_valid (l : List (Char × Char)) (s : String)
    (d : PyDateTime)
    (h : l.findSome? (fun p => strptimeYmdHMS p.1 p.2 s) = some d) :
    d.valid = true := by
  induction l with
  | nil => simp at h
  | cons p ps ih =>
    rw [List.findSome?_cons] at h
    cases hp : strptimeYmdHMS p.1 p.2 s with
    | some d0 =>
      rw [hp] at h
      cases h
      exact strptime_valid p.1 p.2 s d hp
    | none =>
      rw [hp] at h
      exact ih h

/-- The `isoformat` of a constructor-validated datetime is syntactically valid
ISO-8601. -/
lemma isoformat_isoShape (d : PyDateTime) (h : d.valid = true) :
    isoShape d.isoformat = true := by
  simp only [PyDateTime.valid, Bool.and_eq_true, decide_eq_true_eq] at h
  have hy1 : (digitChar (d.year / 1000)).isDigit = true :=
    digitChar_isDigit _ (by omega)
  have hy2 : (digitChar (d.year / 100 % 10)).isDigit = true :=
    digitChar_isDigit _ (by omega)
  have hy3 : (digitChar (d.year / 10 % 10)).isDigit = true :=
    digitChar_isDigit _ (by omega)
  have hy4 : (digitChar (d.year % 10)).isDigit = true :=
    digitChar_isDigit _ (by omega)
  have hmo1 : (digitChar (d.month / 10)).isDigit = true :=
    digitChar_isDigit _ (by omega)
  have hmo2 : (digitChar (d.month % 10)).isDigit = true :=
    digitChar_isDigit _ (by omega)
  have hd1 : (digitChar (d.day / 10)).isDigit = true := by
    have hdm : d.day ≤ 31 := by
      have := h.1.1.1.1.2
      have h29 : daysInMonth d.year d.month ≤ 31 := by
        unfold daysInMonth
        split
        · split <;> omega
        · split <;> omega
      omega
    exact digitChar_isDigit _ (by omega)
  have hd2 : (digitChar (d.day % 10)).isDigit = true :=
    digitChar_isDigit _ (by omega)
  have hh1 : (digitChar (d.hour / 10)).isDigit = true :=
    digitChar_isDigit _ (by omega)
  have hh2 : (digitChar (d.hour % 10)).isDigit = true :=
    digitChar_isDigit _ (by omega)
  have hmi1 : (digitChar (d.minute / 10)).isDigit = true :=
    digitChar_isDigit _ (by omega)
  have hmi2 : (digitChar (d.minute % 10)).isDigit = true :=
    digitChar_isDigit _ (by omega)
  have hs1 : (digitChar (d.second / 10)).isDigit = true :=
    digitChar_isDigit _ (by omega)
  have hs2 : (digitChar (d.second % 10)).isDigit = true :=
    digitChar_isDigit _ (by omega)
  have hu1 : (digitChar (d.microsecond / 100000)).isDigit = true :=
    digitChar_isDigit _ (by omega)
  have hu2 : (digitChar (d.microsecond / 10000 % 10)).isDigit = true :=
    digitChar_isDigit _ (by omega)
  have hu3 : (digitChar (d.microsecond / 1000 % 10)).isDigit = true :=
    digitChar_isDigit _ (by omega)
  have hu4 : (digitChar (d.microsecond / 100 % 10)).isDigit = true :=
    digitChar_isDigit _ (by omega)
  have hu5 : (digitChar (d.microsecond / 10 % 10)).isDigit = true :=
    digitChar_isDigit _ (by omega)
  have hu6 : (digitChar (d.microsecond % 10)).isDigit = true :=
    digitChar_isDigit _ (by omega)
  by_cases hm : d.microsecond = 0 <;>
    simp [isoShape, PyDateTime.isoformat, pad4c, pad2c, pad6c, hm,
      isoShapeChars, hy1, hy2, hy3, hy4, hmo1, hmo2, hd1, hd2, hh1, hh2,
      hmi1, hmi2, hs1, hs2, hu1, hu2, hu3, hu4, hu5, hu6]

/-- C5: the Date Normalizer is a total function (the caller never sees an
exception): whatever the input string — empty, unparseable, or in one of the
four supported layouts — given any constructor-valid wall-clock value the
result is a syntactically valid ISO-8601 string. Moreover it is the ISO
rendering of the first format that parses, and the wall clock's rendering
when the input is empty or no format parses. -/
theorem date_normalizer_total_iso (s : String) (now : PyDateTime)
    (h : now.valid = true) :
    isoShape (formatear_fecha_notion s now) = true ∧
    (s ≠ "" → ∀ d,
       formatos_posibles.findSome? (fun p => strptimeYmdHMS p.1 p.2 s)
         = some d →
       formatear_fecha_notion s now = d.isoformat) ∧
    (s ≠ "" →
       formatos_posibles.findSome? (fun p => strptimeYmdHMS p.1 p.2 s) = none →
       formatear_fecha_notion s now = now.isoformat) ∧
    (s = "" → formatear_fecha_notion s now = now.isoformat) := by
  by_cases hs : s = ""
  · refine ⟨?_, ?_, ?_, fun _ => by simp [formatear_fecha_notion, hs]⟩
    · simp [formatear_fecha_notion, hs, isoformat_isoShape now h]
    · intro hne
      exact absurd hs hne
    · intro hne
      exact absurd hs hne
  · refine ⟨?_, ?_, ?_, fun he => absurd he hs⟩
    · cases hf : formatos_posibles.findSome? (fun p => strptimeYmdHMS p.1 p.2 s) with
      | some d =>
        have hv := findSome_strptime_valid formatos_posibles s d hf
        simp [formatear_fecha_notion, hs, hf, isoformat_isoShape d hv]
      | none =>
        simp [formatear_fecha_notion, hs, hf, isoformat_isoShape now h]
    · intro _ d hf
      simp [formatear_fecha_notion, hs, hf]
    · intro _ hf
      simp [formatear_fecha_notion, hs, hf]

/-- Witness for C5: an unparseable input and a concrete valid wall clock. -/
theorem date_normalizer_total_iso_witness :
    isoShape (formatear_fecha_notion "31/12/2024 10:00" nowFix) = true :=
  (date_normalizer_total_iso "31/12/2024 10:00" nowFix (by decide)).1
